import Mathlib

/-!
Verification of the RPC-over-HTTP (ncacn_http) gateway handshake logic from
`src/libfreerdp/core/gateway/ncacn_http.c`.

The file shallowly embeds the channel-handshake functions of that translation
unit.  External collaborators (the credssp security package, the HTTP framer,
the base64 token codec, the transport write) are not part of the translation
unit; they are modelled from the specification as explicit state fields and
oracle parameters, so that the control flow of the embedded functions is a
line-by-line translation of the C source.
-/

namespace NcacnHttp

/-- Modelled from the spec: a security token is an opaque byte sequence with an
explicit length (`SecBuffer` with `pvBuffer`/`cbBuffer`); a zero-length token is
distinguished from an absent one. -/
structure SecBuffer where
  bytes : List Nat
deriving Repr, DecidableEq

/-- Modelled from the spec: the security context (`rdpCredsspAuth`, external to
the translation unit) owns an authentication-package handle, a completion flag
and zero-or-one pending output token.  `authenticateRc` is the integer result
the next `credssp_auth_authenticate` call will report (negative = failed,
zero = continue needed, positive = complete); `inputBuffer` is the token last
handed over via `credssp_auth_take_input_buffer`. -/
structure CredsspAuth where
  authenticateRc : Int
  outputToken : Option SecBuffer
  pkgName : String
  inputBuffer : Option SecBuffer
  complete : Bool
deriving Repr, DecidableEq

/-- Modelled from the spec: `credssp_auth_have_output_token` reports whether a
pending output token exists. -/
def credssp_auth_have_output_token (auth : CredsspAuth) : Bool :=
  auth.outputToken.isSome

/-- Modelled from the spec: `credssp_auth_get_output_buffer` returns the pending
output token. -/
def credssp_auth_get_output_buffer (auth : CredsspAuth) : SecBuffer :=
  auth.outputToken.getD ⟨[]⟩

/-- Modelled from the spec: `credssp_auth_pkg_name` returns the security
package's scheme name. -/
def credssp_auth_pkg_name (auth : CredsspAuth) : String :=
  auth.pkgName

/-- Modelled from the spec: `credssp_auth_take_input_buffer` hands a received
token to the security context as the next round's input (single-owner
transfer). -/
def credssp_auth_take_input_buffer (auth : CredsspAuth) (buffer : SecBuffer) : CredsspAuth :=
  { auth with inputBuffer := some buffer }

/-- Modelled from the spec: `credssp_auth_is_complete` returns the context's
completion flag. -/
def credssp_auth_is_complete (auth : CredsspAuth) : Bool :=
  auth.complete

/-- Modelled from the spec: the HTTP context of a channel, exposing the target
URI used when building requests (`http_context_get_uri`). -/
structure HttpContext where
  uri : String
deriving Repr, DecidableEq

/-- The channel record (`RpcChannel`): a bound security context, a bound HTTP
context and a TLS transport reference.  `Option` fields model possibly-NULL
pointers. -/
structure RpcChannel where
  auth : Option CredsspAuth
  http : Option HttpContext
  tls : Option Unit
deriving Repr, DecidableEq

/-- The request frame built per round (`HttpRequest`): method, declared content
length (a signaling value, not a byte count), target URI, and the optional
authentication header as a (scheme, encoded-token) pair. -/
structure HttpRequest where
  method : String
  contentLength : Nat
  uri : String
  authScheme : Option String
  authParam : Option String
deriving Repr, DecidableEq

/-- Modelled from the spec: a parsed HTTP response, exposing per-scheme
authentication header tokens (`http_response_get_auth_token`). -/
structure HttpResponse where
  authTokens : List (String × String)
deriving Repr, DecidableEq

/-- Modelled from the spec: extract the encoded authentication token of the
response for a given scheme name; absent when no header matches. -/
def http_response_get_auth_token (response : HttpResponse) (scheme : String) : Option String :=
  (response.authTokens.find? (fun p => p.1 == scheme)).map (fun p => p.2)

/-- Modelled from the spec: the token transport codec (`crypto_base64_encode` /
`crypto_base64_decode`, external to the translation unit) rendered as an
injected capability: a total printable encoding of byte sequences and a
decoding that rejects malformed input by returning `none`. -/
structure TokenCodec where
  encode : List Nat → String
  decode : String → Option (List Nat)

/-- The base64 alphabet used by the standard codec. -/
def b64Alphabet : List Char :=
  "ABCDEFGHIJKLMNOPQRSTUVWXYZabcdefghijklmnopqrstuvwxyz0123456789+/".toList

/-- Index into the base64 alphabet. -/
def b64Char (n : Nat) : Char := b64Alphabet.getD n 'A'

/-- Value of a base64 alphabet character; `none` for characters outside the
alphabet (including the padding character). -/
def b64Val (c : Char) : Option Nat :=
  let i := b64Alphabet.indexOf c
  if i < 64 then some i else none

/-- Modelled from the spec: 6-bit-group encoding of arbitrary bytes, padded. -/
def b64EncodeList : List Nat → List Char
  | [] => []
  | [b1] => [b64Char (b1 / 4 % 64), b64Char (b1 % 4 * 16), '=', '=']
  | [b1, b2] =>
      [b64Char (b1 / 4 % 64), b64Char (b1 % 4 * 16 + b2 / 16 % 16), b64Char (b2 % 16 * 4), '=']
  | b1 :: b2 :: b3 :: rest =>
      b64Char (b1 / 4 % 64) :: b64Char (b1 % 4 * 16 + b2 / 16 % 16) ::
        b64Char (b2 % 16 * 4 + b3 / 64 % 4) :: b64Char (b3 % 64) :: b64EncodeList rest

/-- Modelled from the spec: base64 decoding; malformed input (bad length, bad
characters, misplaced padding) yields `none`. -/
def b64DecodeList : List Char → Option (List Nat)
  | [] => some []
  | [c1, c2, '=', '='] => do
      let v1 ← b64Val c1
      let v2 ← b64Val c2
      some [v1 * 4 + v2 / 16]
  | [c1, c2, c3, '='] => do
      let v1 ← b64Val c1
      let v2 ← b64Val c2
      let v3 ← b64Val c3
      some [v1 * 4 + v2 / 16, v2 % 16 * 16 + v3 / 4]
  | c1 :: c2 :: c3 :: c4 :: rest => do
      let v1 ← b64Val c1
      let v2 ← b64Val c2
      let v3 ← b64Val c3
      let v4 ← b64Val c4
      let tail ← b64DecodeList rest
      some ((v1 * 4 + v2 / 16) :: (v2 % 16 * 16 + v3 / 4) :: (v3 % 4 * 64 + v4) :: tail)
  | _ => none

/-- The standard base64 token codec. -/
def base64Codec : TokenCodec :=
  { encode := fun bs => String.mk (b64EncodeList bs)
    decode := fun s => b64DecodeList s.toList }

/-- `UINT32_MAX`: the maximum representable token size checked by the
receive paths. -/
def UINT32_MAX : Nat := 4294967295

/-- `rpc_auth_http_request` (lines 36-74): builds the per-round request frame
with the given method, declared content length and URI, attaching a
(scheme, base64-token) authentication header exactly when an auth token was
passed in.  `http_request_write`'s serialization to bytes is abstracted: the
built frame itself is returned.  Returns `none` when the HTTP context is
missing. -/
def rpc_auth_http_request (codec : TokenCodec) (http : Option HttpContext) (method : String)
    (contentLength : Nat) (authToken : Option SecBuffer) (auth_scheme : String) :
    Option HttpRequest :=
  match http with
  | none => none
  | some h =>
    let base64AuthToken := authToken.map (fun t => codec.encode t.bytes)
    match base64AuthToken with
    | some tok =>
        some { method := method, contentLength := contentLength, uri := h.uri,
               authScheme := some auth_scheme, authParam := some tok }
    | none =>
        some { method := method, contentLength := contentLength, uri := h.uri,
               authScheme := none, authParam := none }

/-- Result of a send round: the integer value the C function returns through
its `BOOL` return type (the source returns the literals `FALSE` = 0, 1 and
-1), and the request frame that was built and transmitted, if any. -/
structure SendOutcome where
  ret : Int
  request : Option HttpRequest
deriving Repr, DecidableEq

/-- `rpc_ncacn_http_send_in_channel_request` (lines 76-106).  `writeResult` is
the byte count reported by the transport write `rpc_channel_write` for this
round's frame. -/
def rpc_ncacn_http_send_in_channel_request (codec : TokenCodec) (inChannel : Option RpcChannel)
    (writeResult : Int) : SendOutcome :=
  match inChannel with
  | none => { ret := 0, request := none }
  | some ch =>
    match ch.auth, ch.http with
    | some auth, some http =>
      let rc := auth.authenticateRc
      if rc < 0 then { ret := 0, request := none }
      else
        let contentLength : Nat := if rc = 0 then 0 else 0x40000000
        let buffer :=
          if credssp_auth_have_output_token auth then some (credssp_auth_get_output_buffer auth)
          else none
        match rpc_auth_http_request codec (some http) "RPC_IN_DATA" contentLength buffer
            (credssp_auth_pkg_name auth) with
        | none => { ret := -1, request := none }
        | some s =>
          if writeResult > 0 then { ret := 1, request := some s }
          else { ret := -1, request := some s }
    | _, _ => { ret := 0, request := none }

/-- `rpc_ncacn_http_send_out_channel_request` (lines 204-241).  Structure of
the inbound send, with the content-length policy keyed on `replacement` and a
different write-failure check (`rpc_channel_write(...) < 0`). -/
def rpc_ncacn_http_send_out_channel_request (codec : TokenCodec) (outChannel : Option RpcChannel)
    (replacement : Bool) (writeResult : Int) : SendOutcome :=
  match outChannel with
  | none => { ret := 0, request := none }
  | some ch =>
    match ch.auth, ch.http with
    | some auth, some http =>
      let rc := auth.authenticateRc
      if rc < 0 then { ret := 0, request := none }
      else
        let contentLength : Nat :=
          if !replacement then (if rc = 0 then 0 else 76)
          else (if rc = 0 then 0 else 120)
        let buffer :=
          if credssp_auth_have_output_token auth then some (credssp_auth_get_output_buffer auth)
          else none
        match rpc_auth_http_request codec (some http) "RPC_OUT_DATA" contentLength buffer
            (credssp_auth_pkg_name auth) with
        | none => { ret := -1, request := none }
        | some s =>
          if writeResult < 0 then { ret := 0, request := some s }
          else { ret := 1, request := some s }
    | _, _ => { ret := 0, request := none }

/-- `rpc_ncacn_http_recv_in_channel_response` (lines 108-138): extract the
encoded token matching the package scheme, decode it, reject tokens larger
than `UINT32_MAX`, and feed a non-empty decoded token to the security context.
Returns the C `BOOL` result and the resulting channel state. -/
def rpc_ncacn_http_recv_in_channel_response (codec : TokenCodec) (inChannel : Option RpcChannel)
    (response : Option HttpResponse) : Bool × Option RpcChannel :=
  match inChannel, response with
  | some ch, some resp =>
    match ch.auth with
    | some auth =>
      let token64 := http_response_get_auth_token resp (credssp_auth_pkg_name auth)
      let decoded := token64.bind codec.decode
      let authTokenLength := (decoded.getD []).length
      if authTokenLength > UINT32_MAX then (false, some ch)
      else if decoded.isSome && (authTokenLength != 0) then
        (true, some { ch with auth := some (credssp_auth_take_input_buffer auth ⟨decoded.getD []⟩) })
      else (true, some ch)
    | none => (false, some ch)
  | _, _ => (false, inChannel)

/-- `rpc_ncacn_http_recv_out_channel_response` (lines 243-272): the outbound
counterpart, a line-for-line duplicate of the inbound receive in the source. -/
def rpc_ncacn_http_recv_out_channel_response (codec : TokenCodec) (outChannel : Option RpcChannel)
    (response : Option HttpResponse) : Bool × Option RpcChannel :=
  match outChannel, response with
  | some ch, some resp =>
    match ch.auth with
    | some auth =>
      let token64 := http_response_get_auth_token resp (credssp_auth_pkg_name auth)
      let decoded := token64.bind codec.decode
      let authTokenLength := (decoded.getD []).length
      if authTokenLength > UINT32_MAX then (false, some ch)
      else if decoded.isSome && (authTokenLength != 0) then
        (true, some { ch with auth := some (credssp_auth_take_input_buffer auth ⟨decoded.getD []⟩) })
      else (true, some ch)
    | none => (false, some ch)
  | _, _ => (false, outChannel)

/-- Result of the completion check: `credssp_auth_is_complete`'s boolean, or an
assertion violation (`WINPR_ASSERT` fires / a NULL pointer is dereferenced)
when the channel or its security context is missing. -/
inductive CompletionCheckResult
  | assertViolation
  | result (b : Bool)
deriving Repr, DecidableEq

/-- `rpc_ncacn_http_is_final_request` (lines 274-278): `WINPR_ASSERT(channel)`
then return the context's completion flag.  A NULL channel (or NULL security
context, which `credssp_auth_is_complete` asserts on) is an assertion
violation, not a returned failure. -/
def rpc_ncacn_http_is_final_request (channel : Option RpcChannel) : CompletionCheckResult :=
  match channel with
  | none => .assertViolation
  | some ch =>
    match ch.auth with
    | none => .assertViolation
    | some auth => .result (credssp_auth_is_complete auth)

/-- Modelled from the spec: the gateway-authentication decision resolved by
`utils_authenticate_gateway` (external to the translation unit). -/
inductive auth_status
  | AUTH_SUCCESS
  | AUTH_SKIP
  | AUTH_CANCELLED
  | AUTH_NO_CREDENTIALS
  | AUTH_FAILED
deriving Repr, DecidableEq

/-- The last-error kinds recorded through `freerdp_set_last_error_log`;
only the connect-cancelled kind is recorded by this translation unit. -/
inductive FreeRdpError
  | CONNECT_CANCELLED
deriving Repr, DecidableEq

/-- The gateway-related settings consulted by init. -/
structure rdpSettings where
  GatewayUsername : Option String
  GatewayDomain : Option String
  GatewayPassword : Option String
  GatewayHostname : Option String
deriving Repr, DecidableEq

/-- The session context: settings and the freerdp instance reference (only its
presence matters here). -/
structure rdpContext where
  settings : Option rdpSettings
  inst : Option Unit
deriving Repr, DecidableEq

/-- The identity record built from gateway credentials
(`SEC_WINNT_AUTH_IDENTITY`). -/
structure AuthIdentity where
  user : Option String
  domain : Option String
  password : Option String
deriving Repr, DecidableEq

/-- Modelled from the spec: `identity_set_from_settings` fills the identity
from the configured gateway username/domain/password. -/
def identity_set_from_settings (settings : rdpSettings) : AuthIdentity :=
  { user := settings.GatewayUsername
    domain := settings.GatewayDomain
    password := settings.GatewayPassword }

/-- Observable outcome of `rpc_ncacn_http_auth_init`: the returned `BOOL`, the
last error recorded, whether `credssp_auth_init` was invoked (i.e. whether the
call set up a security context on the channel), and the identity argument
handed to `credssp_auth_setup_client` (`none` = setup not called;
`some none` = called with a NULL identity; `some (some id)` = called with the
identity `id`). -/
structure InitOutcome where
  ret : Bool
  lastError : Option FreeRdpError
  credsspInitCalled : Bool
  setupCalledWith : Option (Option AuthIdentity)
deriving Repr, DecidableEq

/-- `rpc_ncacn_http_auth_init` (lines 140-193).  `gwAuth` is the decision
`utils_authenticate_gateway` reports; `credsspInitOk` and `setupClientRes` are
the results of the external calls `credssp_auth_init` and
`credssp_auth_setup_client` for this invocation. -/
def rpc_ncacn_http_auth_init (context : Option rdpContext) (channel : Option RpcChannel)
    (gwAuth : auth_status) (credsspInitOk : Bool) (setupClientRes : Bool) : InitOutcome :=
  match context, channel with
  | some ctx, some ch =>
    match ch.tls, ch.auth, ctx.inst, ctx.settings with
    | some _, some _, some _, some settings =>
      match gwAuth with
      | .AUTH_CANCELLED =>
          { ret := false, lastError := some .CONNECT_CANCELLED,
            credsspInitCalled := false, setupCalledWith := none }
      | .AUTH_FAILED =>
          { ret := false, lastError := none,
            credsspInitCalled := false, setupCalledWith := none }
      | _ =>
        if credsspInitOk then
          let identity := identity_set_from_settings settings
          let identityArg := if settings.GatewayUsername.isSome then some identity else none
          { ret := setupClientRes, lastError := none,
            credsspInitCalled := true, setupCalledWith := some identityArg }
        else
          { ret := false, lastError := none,
            credsspInitCalled := true, setupCalledWith := none }
    | _, _, _, _ =>
        { ret := false, lastError := none, credsspInitCalled := false, setupCalledWith := none }
  | _, _ =>
      { ret := false, lastError := none, credsspInitCalled := false, setupCalledWith := none }

/-- With a present HTTP context the request builder always yields a frame whose
fields are determined by its arguments; the auth header is present exactly when
a token was passed. -/
theorem rpc_auth_http_request_some (codec : TokenCodec) (h : HttpContext) (m : String)
    (cl : Nat) (tok : Option SecBuffer) (sch : String) :
    rpc_auth_http_request codec (some h) m cl tok sch =
      some { method := m, contentLength := cl, uri := h.uri,
             authScheme := tok.map (fun _ => sch),
             authParam := tok.map (fun t => codec.encode t.bytes) } := by
  cases tok <;> rfl

/-- Characterization of an inbound send round on a valid channel whose
security step did not fail. -/
theorem send_in_channel_request_eq (codec : TokenCodec) (ch : RpcChannel) (auth : CredsspAuth)
    (http : HttpContext) (w : Int) (hauth : ch.auth = some auth) (hhttp : ch.http = some http)
    (hrc : 0 ≤ auth.authenticateRc) :
    rpc_ncacn_http_send_in_channel_request codec (some ch) w =
      { ret := if w > 0 then 1 else -1,
        request := some
          { method := "RPC_IN_DATA",
            contentLength := if auth.authenticateRc = 0 then 0 else 0x40000000,
            uri := http.uri,
            authScheme := auth.outputToken.map (fun _ => auth.pkgName),
            authParam := auth.outputToken.map (fun t => codec.encode t.bytes) } } := by
  have hrc' : ¬ auth.authenticateRc < 0 := not_lt.mpr hrc
  simp only [rpc_ncacn_http_send_in_channel_request, hauth, hhttp, hrc', if_false,
    credssp_auth_have_output_token, credssp_auth_get_output_buffer, credssp_auth_pkg_name,
    rpc_auth_http_request_some]
  cases hot : auth.outputToken <;> by_cases hw : w > 0 <;> simp [hot, hw]

/-- Characterization of an outbound send round on a valid channel whose
security step did not fail. -/
theorem send_out_channel_request_eq (codec : TokenCodec) (ch : RpcChannel) (auth : CredsspAuth)
    (http : HttpContext) (repl : Bool) (w : Int) (hauth : ch.auth = some auth)
    (hhttp : ch.http = some http) (hrc : 0 ≤ auth.authenticateRc) :
    rpc_ncacn_http_send_out_channel_request codec (some ch) repl w =
      { ret := if w < 0 then 0 else 1,
        request := some
          { method := "RPC_OUT_DATA",
            contentLength :=
              if !repl then (if auth.authenticateRc = 0 then 0 else 76)
              else (if auth.authenticateRc = 0 then 0 else 120),
            uri := http.uri,
            authScheme := auth.outputToken.map (fun _ => auth.pkgName),
            authParam := auth.outputToken.map (fun t => codec.encode t.bytes) } } := by
  have hrc' : ¬ auth.authenticateRc < 0 := not_lt.mpr hrc
  simp only [rpc_ncacn_http_send_out_channel_request, hauth, hhttp, hrc', if_false,
    credssp_auth_have_output_token, credssp_auth_get_output_buffer, credssp_auth_pkg_name,
    rpc_auth_http_request_some]
  cases hot : auth.outputToken <;> by_cases hw : w < 0 <;> simp [hot, hw]

/-- Claim C1: in an inbound send round whose security step succeeds
(`credssp_auth_authenticate` non-negative), the declared content length of the
built request is exactly 0 when the step reports continue-needed
(`NeedMoreInput`, result 0) and exactly 0x40000000 when it reports completion
(positive result). -/
theorem sendInChannelRequest_contentLength_policy (codec : TokenCodec) (ch : RpcChannel)
    (auth : CredsspAuth) (http : HttpContext) (w : Int) (hauth : ch.auth = some auth)
    (hhttp : ch.http = some http) (hrc : 0 ≤ auth.authenticateRc) :
    (auth.authenticateRc = 0 →
      ((rpc_ncacn_http_send_in_channel_request codec (some ch) w).request.map
        HttpRequest.contentLength) = some 0) ∧
    (0 < auth.authenticateRc →
      ((rpc_ncacn_http_send_in_channel_request codec (some ch) w).request.map
        HttpRequest.contentLength) = some 0x40000000) := by
  rw [send_in_channel_request_eq codec ch auth http w hauth hhttp hrc]
  constructor
  · intro h0
    simp [h0]
  · intro hpos
    have : auth.authenticateRc ≠ 0 := by omega
    simp [this]

/-- A concrete security context in mid-negotiation: the next authenticate call
reports 0 (continue needed) with a pending one-byte output token. -/
def negotiatingAuth : CredsspAuth :=
  { authenticateRc := 0, outputToken := some ⟨[65]⟩, pkgName := "NTLM",
    inputBuffer := none, complete := false }

/-- A concrete security context whose next authenticate call reports 1
(complete) with no pending output token. -/
def completedAuth : CredsspAuth :=
  { authenticateRc := 1, outputToken := none, pkgName := "NTLM",
    inputBuffer := none, complete := true }

/-- A concrete HTTP context. -/
def sampleHttp : HttpContext := { uri := "/rpc/rpcproxy.dll" }

/-- A concrete valid channel in mid-negotiation. -/
def negotiatingChannel : RpcChannel :=
  { auth := some negotiatingAuth, http := some sampleHttp, tls := some () }

/-- A concrete valid channel whose negotiation completes this round. -/
def completedChannel : RpcChannel :=
  { auth := some completedAuth, http := some sampleHttp, tls := some () }

/-- Claim C1 witness: a concrete completed inbound round declares content
length 0x40000000. -/
theorem sendInChannelRequest_contentLength_policy_witness :
    (0 : Int) ≤ completedAuth.authenticateRc ∧
    ((rpc_ncacn_http_send_in_channel_request base64Codec (some completedChannel) 5).request.map
      HttpRequest.contentLength) = some 0x40000000 :=
  ⟨by decide,
   (sendInChannelRequest_contentLength_policy base64Codec completedChannel completedAuth
      sampleHttp 5 rfl rfl (by decide)).2 (by decide)⟩

/-- Claim C2: in an outbound send round whose security step succeeds, the
declared content length is 0 when the step reports continue-needed, and on
completion it is 76 when `replacement` is false and 120 when `replacement` is
true. -/
theorem sendOutChannelRequest_contentLength_policy (codec : TokenCodec) (ch : RpcChannel)
    (auth : CredsspAuth) (http : HttpContext) (repl : Bool) (w : Int)
    (hauth : ch.auth = some auth) (hhttp : ch.http = some http)
    (hrc : 0 ≤ auth.authenticateRc) :
    (auth.authenticateRc = 0 →
      ((rpc_ncacn_http_send_out_channel_request codec (some ch) repl w).request.map
        HttpRequest.contentLength) = some 0) ∧
    (0 < auth.authenticateRc → repl = false →
      ((rpc_ncacn_http_send_out_channel_request codec (some ch) repl w).request.map
        HttpRequest.contentLength) = some 76) ∧
    (0 < auth.authenticateRc → repl = true →
      ((rpc_ncacn_http_send_out_channel_request codec (some ch) repl w).request.map
        HttpRequest.contentLength) = some 120) := by
  rw [send_out_channel_request_eq codec ch auth http repl w hauth hhttp hrc]
  refine ⟨fun h0 => by cases repl <;> simp [h0], fun hpos hr => ?_, fun hpos hr => ?_⟩
  · have h0 : auth.authenticateRc ≠ 0 := by omega
    simp [hr, h0]
  · have h0 : auth.authenticateRc ≠ 0 := by omega
    simp [hr, h0]

/-- Claim C2 witness: a concrete completed outbound round with
`replacement = true` declares content length 120. -/
theorem sendOutChannelRequest_contentLength_policy_witness :
    (0 : Int) ≤ completedAuth.authenticateRc ∧
    ((rpc_ncacn_http_send_out_channel_request base64Codec (some completedChannel) true 5).request.map
      HttpRequest.contentLength) = some 120 :=
  ⟨by decide,
   (sendOutChannelRequest_contentLength_policy base64Codec completedChannel completedAuth
      sampleHttp true 5 rfl rfl (by decide)).2.2 (by decide) rfl⟩

/-- Claim C3: on either channel, the built request frame carries an
authentication header (scheme plus encoded token) exactly when the security
context holds a pending output token for the round: a pending token is
base64-encoded and attached under the package's scheme name, and with no
pending token the request carries no authentication header. -/
theorem request_auth_header_iff_output_token (codec : TokenCodec) (ch : RpcChannel)
    (auth : CredsspAuth) (http : HttpContext) (w : Int) (repl : Bool)
    (hauth : ch.auth = some auth) (hhttp : ch.http = some http) :
    (∀ req, (rpc_ncacn_http_send_in_channel_request codec (some ch) w).request = some req →
      (req.authScheme.isSome ↔ auth.outputToken.isSome) ∧
      (∀ t, auth.outputToken = some t →
        req.authScheme = some (credssp_auth_pkg_name auth) ∧
        req.authParam = some (codec.encode t.bytes)) ∧
      (auth.outputToken = none → req.authScheme = none ∧ req.authParam = none)) ∧
    (∀ req, (rpc_ncacn_http_send_out_channel_request codec (some ch) repl w).request = some req →
      (req.authScheme.isSome ↔ auth.outputToken.isSome) ∧
      (∀ t, auth.outputToken = some t →
        req.authScheme = some (credssp_auth_pkg_name auth) ∧
        req.authParam = some (codec.encode t.bytes)) ∧
      (auth.outputToken = none → req.authScheme = none ∧ req.authParam = none)) := by
  by_cases hrc : auth.authenticateRc < 0
  · constructor <;> intro req hreq
    · simp [rpc_ncacn_http_send_in_channel_request, hauth, hhttp, hrc] at hreq
    · simp [rpc_ncacn_http_send_out_channel_request, hauth, hhttp, hrc] at hreq
  · have hrc' : 0 ≤ auth.authenticateRc := not_lt.mp hrc
    constructor <;> intro req hreq
    · rw [send_in_channel_request_eq codec ch auth http w hauth hhttp hrc'] at hreq
      simp only [Option.some.injEq] at hreq
      subst hreq
      cases hot : auth.outputToken <;> simp [hot, credssp_auth_pkg_name]
    · rw [send_out_channel_request_eq codec ch auth http repl w hauth hhttp hrc'] at hreq
      simp only [Option.some.injEq] at hreq
      subst hreq
      cases hot : auth.outputToken <;> simp [hot, credssp_auth_pkg_name]

/-- Claim C3 witness: a concrete mid-negotiation round with pending token
`[65]` attaches the scheme and its base64 encoding. -/
theorem request_auth_header_iff_output_token_witness :
    ({ method := "RPC_IN_DATA", contentLength := 0, uri := "/rpc/rpcproxy.dll",
       authScheme := some "NTLM", authParam := some "QQ==" } : HttpRequest).authScheme =
        some (credssp_auth_pkg_name negotiatingAuth) ∧
    ({ method := "RPC_IN_DATA", contentLength := 0, uri := "/rpc/rpcproxy.dll",
       authScheme := some "NTLM", authParam := some "QQ==" } : HttpRequest).authParam =
        some (base64Codec.encode [65]) :=
  ((request_auth_header_iff_output_token base64Codec negotiatingChannel negotiatingAuth
      sampleHttp 5 false rfl rfl).1 _ (by decide)).2.1 ⟨[65]⟩ rfl

/-- Claim C4 counterexample: a concrete completed outbound round whose
transport write reports 0 bytes written returns TRUE (1), not a failure
result, refuting that both send operations treat a zero byte count as
failure. -/
theorem sendOutChannelRequest_zero_write_reports_success :
    (rpc_ncacn_http_send_out_channel_request base64Codec (some completedChannel) false 0).ret = 1 ∧
    (rpc_ncacn_http_send_out_channel_request base64Codec (some completedChannel) false 0).ret ≠ 0 := by
  decide

/-- Claim C4 amended: the inbound send treats a zero-or-negative write count
as failure (it returns -1 rather than TRUE); the outbound send reports failure
(FALSE) only for a strictly negative write count and reports success (TRUE)
for a zero or positive count. -/
theorem send_write_failure_policy (codec : TokenCodec) (ch : RpcChannel) (auth : CredsspAuth)
    (http : HttpContext) (repl : Bool) (w : Int) (hauth : ch.auth = some auth)
    (hhttp : ch.http = some http) (hrc : 0 ≤ auth.authenticateRc) :
    (w ≤ 0 → (rpc_ncacn_http_send_in_channel_request codec (some ch) w).ret = -1) ∧
    (w < 0 → (rpc_ncacn_http_send_out_channel_request codec (some ch) repl w).ret = 0) ∧
    (0 ≤ w → (rpc_ncacn_http_send_out_channel_request codec (some ch) repl w).ret = 1) := by
  rw [send_in_channel_request_eq codec ch auth http w hauth hhttp hrc,
    send_out_channel_request_eq codec ch auth http repl w hauth hhttp hrc]
  refine ⟨fun hw => ?_, fun hw => ?_, fun hw => ?_⟩
  · simp [not_lt.mpr hw]
  · simp [hw]
  · simp [not_lt.mpr hw]

/-- Claim C4 amended witness: a concrete inbound round whose write reports -1
bytes returns the failure value -1. -/
theorem send_write_failure_policy_witness :
    (rpc_ncacn_http_send_in_channel_request base64Codec (some completedChannel) (-1)).ret = -1 :=
  (send_write_failure_policy base64Codec completedChannel completedAuth sampleHttp false (-1)
    rfl rfl (by decide)).1 (by decide)

/-- Claim C5: receiving an inbound response on a valid channel returns success
and leaves the security context unchanged when no header matches the package's
scheme name; returns success without feeding the context when the header
decodes to an empty token; and when the header decodes to a non-empty token
within the size limit, hands exactly that token to the security context as the
next input and returns success. -/
theorem recvInChannelResponse_token_handling (codec : TokenCodec) (ch : RpcChannel)
    (auth : CredsspAuth) (resp : HttpResponse) (hauth : ch.auth = some auth) :
    (http_response_get_auth_token resp (credssp_auth_pkg_name auth) = none →
      rpc_ncacn_http_recv_in_channel_response codec (some ch) (some resp) = (true, some ch)) ∧
    (∀ t64, http_response_get_auth_token resp (credssp_auth_pkg_name auth) = some t64 →
      codec.decode t64 = some [] →
      rpc_ncacn_http_recv_in_channel_response codec (some ch) (some resp) = (true, some ch)) ∧
    (∀ t64 tok, http_response_get_auth_token resp (credssp_auth_pkg_name auth) = some t64 →
      codec.decode t64 = some tok → tok ≠ [] → tok.length ≤ UINT32_MAX →
      rpc_ncacn_http_recv_in_channel_response codec (some ch) (some resp) =
        (true, some { ch with auth := some (credssp_auth_take_input_buffer auth ⟨tok⟩) })) := by
  refine ⟨fun hnone => ?_, fun t64 ht hd => ?_, fun t64 tok ht hd hne hle => ?_⟩
  · simp [rpc_ncacn_http_recv_in_channel_response, hauth, hnone, UINT32_MAX]
  · simp [rpc_ncacn_http_recv_in_channel_response, hauth, ht, hd, UINT32_MAX]
  · have hlen : ¬ tok.length > UINT32_MAX := not_lt.mpr hle
    simp [rpc_ncacn_http_recv_in_channel_response, hauth, ht, hd, hlen, hne]

/-- Claim C5 witness: a concrete response carrying the 9-byte NTLM negotiate
prefix is handed to the context as its next input. -/
theorem recvInChannelResponse_token_handling_witness :
    rpc_ncacn_http_recv_in_channel_response base64Codec (some negotiatingChannel)
        (some { authTokens := [("NTLM", "TlRMTVNTUAAB")] }) =
      (true, some { negotiatingChannel with
        auth := some (credssp_auth_take_input_buffer negotiatingAuth
          ⟨[78, 84, 76, 77, 83, 83, 80, 0, 1]⟩) }) :=
  (recvInChannelResponse_token_handling base64Codec negotiatingChannel negotiatingAuth
      { authTokens := [("NTLM", "TlRMTVNTUAAB")] } rfl).2.2 "TlRMTVNTUAAB"
    [78, 84, 76, 77, 83, 83, 80, 0, 1] (by decide) (by decide) (by decide) (by decide)

/-- Claim C6: on either channel, a response token whose decoded length exceeds
`UINT32_MAX` makes the receive operation return failure without feeding the
security context: the channel state is unchanged. -/
theorem recvChannelResponse_token_too_large (codec : TokenCodec) (ch : RpcChannel)
    (auth : CredsspAuth) (resp : HttpResponse) (t64 : String) (tok : List Nat)
    (hauth : ch.auth = some auth)
    (ht : http_response_get_auth_token resp (credssp_auth_pkg_name auth) = some t64)
    (hd : codec.decode t64 = some tok) (hlen : UINT32_MAX < tok.length) :
    rpc_ncacn_http_recv_in_channel_response codec (some ch) (some resp) = (false, some ch) ∧
    rpc_ncacn_http_recv_out_channel_response codec (some ch) (some resp) = (false, some ch) := by
  constructor <;>
    simp [rpc_ncacn_http_recv_in_channel_response, rpc_ncacn_http_recv_out_channel_response,
      hauth, ht, hd, hlen]

/-- A token codec test double whose decoding always reports a token one byte
longer than `UINT32_MAX`. -/
def hugeCodec : TokenCodec :=
  { encode := fun _ => ""
    decode := fun _ => some (List.replicate 4294967296 0) }

/-- A concrete response carrying an NTLM header token. -/
def ntlmResponse : HttpResponse := { authTokens := [("NTLM", "TlRMTVNTUAAB")] }

/-- Claim C6 witness: with a codec reporting a decoded length of 2^32, both
receive operations fail and leave the concrete channel unchanged. -/
theorem recvChannelResponse_token_too_large_witness :
    rpc_ncacn_http_recv_in_channel_response hugeCodec (some completedChannel)
        (some ntlmResponse) = (false, some completedChannel) ∧
    rpc_ncacn_http_recv_out_channel_response hugeCodec (some completedChannel)
        (some ntlmResponse) = (false, some completedChannel) :=
  recvChannelResponse_token_too_large hugeCodec completedChannel completedAuth ntlmResponse
    "TlRMTVNTUAAB" (List.replicate 4294967296 0) rfl (by decide) rfl
    (by rw [List.length_replicate]; decide)

/-- Claim C10: the inbound and outbound response-receiving operations are
extensionally equal: same result and same security-context state change for
every codec, channel and response. -/
theorem recv_in_eq_recv_out :
    rpc_ncacn_http_recv_in_channel_response = rpc_ncacn_http_recv_out_channel_response := rfl

/-- Claim C7: when the gateway-authentication decision is cancelled, init
records the distinct connect-cancelled error kind, returns failure, does not
invoke the security-context setup and never reaches the setup-client call. -/
theorem auth_init_cancelled_distinct_error (ctx : rdpContext) (ch : RpcChannel)
    (settings : rdpSettings) (auth : CredsspAuth) (iOk sRes : Bool)
    (htls : ch.tls = some ()) (hauth : ch.auth = some auth)
    (hinst : ctx.inst = some ()) (hset : ctx.settings = some settings) :
    rpc_ncacn_http_auth_init (some ctx) (some ch) .AUTH_CANCELLED iOk sRes =
      { ret := false, lastError := some .CONNECT_CANCELLED,
        credsspInitCalled := false, setupCalledWith := none } := by
  simp [rpc_ncacn_http_auth_init, htls, hauth, hinst, hset]

/-- Concrete gateway settings with a configured username. -/
def sampleSettings : rdpSettings :=
  { GatewayUsername := some "user", GatewayDomain := some "dom",
    GatewayPassword := some "pw", GatewayHostname := some "gw.example.com" }

/-- A concrete session context with the sample settings. -/
def sampleContext : rdpContext := { settings := some sampleSettings, inst := some () }

/-- Claim C7 witness: cancellation on a concrete valid context and channel. -/
theorem auth_init_cancelled_distinct_error_witness :
    rpc_ncacn_http_auth_init (some sampleContext) (some negotiatingChannel)
        .AUTH_CANCELLED true true =
      { ret := false, lastError := some .CONNECT_CANCELLED,
        credsspInitCalled := false, setupCalledWith := none } :=
  auth_init_cancelled_distinct_error sampleContext negotiatingChannel sampleSettings
    negotiatingAuth true true rfl rfl rfl rfl

/-- Claim C8: when the gateway-auth decision proceeds and the context setup
succeeds, init passes a NULL identity to the setup-client call when no gateway
username is configured (still proceeding rather than failing, with the overall
result that of the setup call), and passes the identity derived from the
gateway username/domain/password when a username is configured. -/
theorem auth_init_identity_policy (ctx : rdpContext) (ch : RpcChannel)
    (settings : rdpSettings) (auth : CredsspAuth) (sRes : Bool) (gwAuth : auth_status)
    (htls : ch.tls = some ()) (hauth : ch.auth = some auth)
    (hinst : ctx.inst = some ()) (hset : ctx.settings = some settings)
    (hgw : gwAuth = auth_status.AUTH_SUCCESS ∨ gwAuth = auth_status.AUTH_SKIP ∨
      gwAuth = auth_status.AUTH_NO_CREDENTIALS) :
    (settings.GatewayUsername = none →
      rpc_ncacn_http_auth_init (some ctx) (some ch) gwAuth true sRes =
        { ret := sRes, lastError := none, credsspInitCalled := true,
          setupCalledWith := some none }) ∧
    (settings.GatewayUsername.isSome →
      rpc_ncacn_http_auth_init (some ctx) (some ch) gwAuth true sRes =
        { ret := sRes, lastError := none, credsspInitCalled := true,
          setupCalledWith := some (some (identity_set_from_settings settings)) }) := by
  rcases hgw with rfl | rfl | rfl <;>
    refine ⟨fun hu => ?_, fun hu => ?_⟩ <;>
      simp [rpc_ncacn_http_auth_init, htls, hauth, hinst, hset, hu]

/-- Concrete gateway settings with no username configured. -/
def anonSettings : rdpSettings :=
  { GatewayUsername := none, GatewayDomain := none,
    GatewayPassword := none, GatewayHostname := some "gw.example.com" }

/-- A concrete session context with no gateway username configured. -/
def anonContext : rdpContext := { settings := some anonSettings, inst := some () }

/-- Claim C8 witness: with no username configured, the no-credentials decision
still reaches the setup-client call with a NULL identity and succeeds. -/
theorem auth_init_identity_policy_witness :
    rpc_ncacn_http_auth_init (some anonContext) (some negotiatingChannel)
        .AUTH_NO_CREDENTIALS true true =
      { ret := true, lastError := none, credsspInitCalled := true,
        setupCalledWith := some none } :=
  (auth_init_identity_policy anonContext negotiatingChannel anonSettings negotiatingAuth
      true .AUTH_NO_CREDENTIALS rfl rfl rfl rfl (Or.inr (Or.inr rfl))).1 rfl

/-- Claim C9 counterexample: the completion check on a NULL channel is an
assertion violation, not a returned failure result, refuting that every public
handshake operation returns a failure result on a NULL channel. -/
theorem isFinalRequest_null_channel_asserts :
    rpc_ncacn_http_is_final_request none = CompletionCheckResult.assertViolation ∧
    CompletionCheckResult.assertViolation ≠ CompletionCheckResult.result false ∧
    CompletionCheckResult.assertViolation ≠ CompletionCheckResult.result true := by
  decide

/-- Claim C9 amended: the send, receive and init operations return a failure
result when given a NULL channel or a channel/context missing a required
reference; the completion check instead asserts on a NULL channel (or a
channel without a security context) and does not return a failure result. -/
theorem null_argument_checks (codec : TokenCodec) (ch : RpcChannel) (w : Int) (repl : Bool)
    (resp : HttpResponse) (ctx : rdpContext) (gw : auth_status) (iOk sRes : Bool) :
    ((rpc_ncacn_http_send_in_channel_request codec none w).ret = 0) ∧
    (ch.auth = none ∨ ch.http = none →
      (rpc_ncacn_http_send_in_channel_request codec (some ch) w).ret = 0) ∧
    ((rpc_ncacn_http_send_out_channel_request codec none repl w).ret = 0) ∧
    (ch.auth = none ∨ ch.http = none →
      (rpc_ncacn_http_send_out_channel_request codec (some ch) repl w).ret = 0) ∧
    ((rpc_ncacn_http_recv_in_channel_response codec none (some resp)).1 = false) ∧
    ((rpc_ncacn_http_recv_in_channel_response codec (some ch) none).1 = false) ∧
    (ch.auth = none →
      (rpc_ncacn_http_recv_in_channel_response codec (some ch) (some resp)).1 = false) ∧
    ((rpc_ncacn_http_recv_out_channel_response codec none (some resp)).1 = false) ∧
    ((rpc_ncacn_http_recv_out_channel_response codec (some ch) none).1 = false) ∧
    (ch.auth = none →
      (rpc_ncacn_http_recv_out_channel_response codec (some ch) (some resp)).1 = false) ∧
    ((rpc_ncacn_http_auth_init none (some ch) gw iOk sRes).ret = false) ∧
    ((rpc_ncacn_http_auth_init (some ctx) none gw iOk sRes).ret = false) ∧
    (ch.tls = none ∨ ch.auth = none →
      (rpc_ncacn_http_auth_init (some ctx) (some ch) gw iOk sRes).ret = false) ∧
    (ctx.inst = none ∨ ctx.settings = none →
      (rpc_ncacn_http_auth_init (some ctx) (some ch) gw iOk sRes).ret = false) ∧
    (rpc_ncacn_http_is_final_request none = CompletionCheckResult.assertViolation) := by
  refine ⟨rfl, ?_, rfl, ?_, rfl, rfl, ?_, rfl, rfl, ?_, rfl, rfl, ?_, ?_, rfl⟩
  · intro h
    rcases h with h | h <;> cases ha : ch.auth <;> cases hh : ch.http <;>
      simp_all [rpc_ncacn_http_send_in_channel_request]
  · intro h
    rcases h with h | h <;> cases ha : ch.auth <;> cases hh : ch.http <;>
      simp_all [rpc_ncacn_http_send_out_channel_request]
  · intro h
    simp [rpc_ncacn_http_recv_in_channel_response, h]
  · intro h
    simp [rpc_ncacn_http_recv_out_channel_response, h]
  · intro h
    rcases h with h | h <;> cases ht : ch.tls <;> cases ha : ch.auth <;>
      cases hi : ctx.inst <;> cases hs : ctx.settings <;>
        simp_all [rpc_ncacn_http_auth_init]
  · intro h
    rcases h with h | h <;> cases ht : ch.tls <;> cases ha : ch.auth <;>
      cases hi : ctx.inst <;> cases hs : ctx.settings <;>
        simp_all [rpc_ncacn_http_auth_init]

/-- Claim C9 amended witness: a concrete channel missing its HTTP context
makes the inbound send return FALSE. -/
theorem null_argument_checks_witness :
    (rpc_ncacn_http_send_in_channel_request base64Codec
      (some { auth := some negotiatingAuth, http := none, tls := none }) 5).ret = 0 :=
  (null_argument_checks base64Codec { auth := some negotiatingAuth, http := none, tls := none }
    5 false ntlmResponse sampleContext .AUTH_SUCCESS true true).2.1 (Or.inr rfl)

end NcacnHttp
